import Mathlib

/-!
# Verification of the Outfit_predict two-stage outfit-completion search

A shallow embedding of `backend/app/ml/image_search.py` (class
`ImageSearchEngine`, methods `find_similar_outfit` and
`find_similar_outfit_v2`), the output schemas of
`backend/app/schemas/outfit.py`, and the image-preprocessing entry point
`backend/app/ml/encoding_models.py` (`DinoV2ImageEncoder._load_and_preprocess_image`).

Modelling conventions:
* Python floats / numpy floats are modelled as `ℚ` (the claims under study are
  structural: which matches are emitted, list lengths, means — not rounding).
* numpy vectors are `List ℚ`; `np.dot` is `dot`; a 2-D numpy array is a
  `List (List ℚ)` and `arr.size == 0` is `npSize arr = 0`.
* Raised exceptions are `Except SearchError`: input validation raises
  `SearchError.valueError` (Python `ValueError`), a failing vector-index call
  raises `SearchError.upstream` (any qdrant/network exception).
* The Qdrant client (`backend/app/storage/qdrant_client.py`) and the encoder are
  external collaborators: they are passed in as function-valued parameters
  (`QdrantService`, `encode`), exactly as the engine receives them.
-/

namespace OutfitPredict

/-- Opaque handle for an in-memory PIL image passed to the engine; the encoder
function interprets it.  The engine itself never inspects the image. -/
abbrev Img := Nat

/-- Model of `np.dot` on two equal-length vectors (model of
`np.dot(wardrobe_embedding, outfit_item_embedding)` and of one entry of
`np.dot(wardrobe_embeddings, outfit_item_embeddings.T)`). -/
def dot (a b : List ℚ) : ℚ := (List.zipWith (fun x y => x * y) a b).sum

/-- Total number of scalar entries of a 2-D numpy array
(`wardrobe_embeddings.size`). -/
def npSize (m : List (List ℚ)) : ℕ := (m.map List.length).sum

/-- A stored point returned by `QdrantService.get_outfit_vectors` (a
`qdrant_client.models.Record`): id, vector and optional payload dict. -/
structure Record where
  id : String
  vector : List ℚ
  payload : Option (List (String × String))
deriving DecidableEq, Repr

/-- A scored point returned by `QdrantService.search_vectors`
(with payload, as used by Stage 1 of `find_similar_outfit`). -/
structure ScoredPoint where
  id : String
  score : ℚ
  payload : List (String × String)
deriving DecidableEq, Repr

/-- Errors surfaced by the engine: `valueError` models Python `ValueError`
raised by input validation; `upstream` models any exception raised by a
vector-index (qdrant) call. -/
inductive SearchError where
  | valueError
  | upstream
deriving DecidableEq, Repr

/-- The qdrant collaborator, restricted to the two operations the search
methods use: `search_vectors(query_vector, limit, score_threshold)` and
`get_outfit_vectors(outfit_id)` (which may raise). -/
structure QdrantService where
  search_vectors : List ℚ → ℕ → ℚ → List ScoredPoint
  get_outfit_vectors : String → Except SearchError (List Record)

/-- Schema `MatchedItem` of `app/schemas/outfit.py`: required `outfit_item_id` and
`score`; optional wardrobe-match fields and external-suggestion fields
(pydantic defaults `None`). -/
structure MatchedItem where
  outfit_item_id : String
  score : ℚ
  wardrobe_image_index : Option ℤ
  wardrobe_image_object_name : Option String
  suggested_item_product_link : Option String
  suggested_item_image_link : Option String
deriving DecidableEq, Repr

/-- Schema `RecommendedOutfit` of `app/schemas/outfit.py`. -/
structure RecommendedOutfit where
  outfit_id : String
  completeness_score : ℚ
  «matches» : List MatchedItem
deriving DecidableEq, Repr

/-- Python `dict.get` on a payload modelled as an association list. -/
def lookupStr (key : String) : List (String × String) → Option String
  | [] => none
  | (k, v) :: rest => if k = key then some v else lookupStr key rest

/-- Model of `r.payload.get("clothing_type", "unknown") if r.payload else
"unknown"` (image_search.py:249-252). -/
def payloadClothingType (r : Record) : String :=
  (r.payload.bind (fun p => lookupStr "clothing_type" p)).getD "unknown"

/-- The inner loop of `find_similar_outfit_v2` (image_search.py:264-280):
over `j in range(len(wardrobe_embeddings))`, keep the best
`(best_match_score, best_wardrobe_idx)` — initialised to `(-1.0, -1)` — among
wardrobe items whose clothing type equals the outfit item's and whose index is
not yet used, updating on strictly greater similarity. -/
def bestWardrobeMatch (wEmb : List (List ℚ)) (wTypes : List String)
    (used : List ℕ) (itemEmb : List ℚ) (itemType : String) : ℚ × ℤ :=
  (List.range wEmb.length).foldl
    (fun acc j =>
      if wTypes.getD j "" = itemType ∧ j ∉ used then
        let s := dot (wEmb.getD j []) itemEmb
        if acc.1 < s then (s, (j : ℤ)) else acc
      else acc)
    (-1, -1)

/-- Mutable loop state of `find_similar_outfit_v2`'s per-outfit scoring:
`matched_items`, `outfit_scores`, `used_wardrobe_indices`
(image_search.py:254-256).  The Python `set` is modelled as a list queried
with `contains`. -/
structure V2State where
  matched : List MatchedItem
  scores : List ℚ
  used : List ℕ
deriving DecidableEq, Repr

/-- One iteration of the outfit-item loop of `find_similar_outfit_v2`
(image_search.py:259-301): find the best same-type unused wardrobe item; if
one was found (`best_wardrobe_idx != -1`) append a wardrobe-matched
`MatchedItem` and its score and mark the index used; otherwise append the
gap score `-10000` and emit nothing. -/
def v2Step (wEmb : List (List ℚ)) (wTypes wNames : List String)
    (st : V2State) (r : Record) : V2State :=
  let best := bestWardrobeMatch wEmb wTypes st.used r.vector (payloadClothingType r)
  if best.2 ≠ -1 then
    { matched := st.matched ++
        [{ outfit_item_id := r.id,
           score := best.1,
           wardrobe_image_index := some best.2,
           wardrobe_image_object_name := some (wNames.getD best.2.toNat ""),
           suggested_item_product_link := none,
           suggested_item_image_link := none }],
      scores := st.scores ++ [best.1],
      used := st.used ++ [best.2.toNat] }
  else
    { st with scores := st.scores ++ [(-10000 : ℚ)] }

/-- The whole outfit-item loop of `find_similar_outfit_v2` for one candidate
outfit.  The source iterates `i in range(len(outfit_item_ids))` over three
parallel lists extracted from `outfit_item_records`; folding over the records
themselves is the same iteration. -/
def scoreOutfitV2 (wEmb : List (List ℚ)) (wTypes wNames : List String)
    (records : List Record) : V2State :=
  records.foldl (v2Step wEmb wTypes wNames) ⟨[], [], []⟩

/-- Model of `float(np.mean(outfit_scores)) if outfit_scores else 0.0`
(image_search.py:303-307). -/
def meanOrZero (scores : List ℚ) : ℚ :=
  if scores.isEmpty then 0 else scores.sum / (scores.length : ℚ)

/-- The candidate loop of `find_similar_outfit_v2` (image_search.py:236-317):
for each sampled outfit id, fetch its indexed points (a raised exception
propagates), skip the candidate if there are none, score it, and append a
`RecommendedOutfit` only when `matched_items` is non-empty. -/
def stage2V2 (fetch : String → Except SearchError (List Record))
    (wEmb : List (List ℚ)) (wTypes wNames : List String) :
    List String → Except SearchError (List RecommendedOutfit)
  | [] => .ok []
  | oid :: rest =>
    match fetch oid with
    | .error e => .error e
    | .ok records =>
      if records.isEmpty then
        stage2V2 fetch wEmb wTypes wNames rest
      else
        match stage2V2 fetch wEmb wTypes wNames rest with
        | .error e => .error e
        | .ok tail =>
          if (scoreOutfitV2 wEmb wTypes wNames records).matched.isEmpty then
            .ok tail
          else
            .ok ({ outfit_id := oid,
                   completeness_score :=
                     meanOrZero (scoreOutfitV2 wEmb wTypes wNames records).scores,
                   «matches» := (scoreOutfitV2 wEmb wTypes wNames records).matched }
                 :: tail)

/-- Stable insertion of a `RecommendedOutfit` into a list sorted descending by
`completeness_score`: the new (originally earlier) element goes before every
element of not-greater score. -/
def insertByScore (a : RecommendedOutfit) :
    List RecommendedOutfit → List RecommendedOutfit
  | [] => [a]
  | b :: bs =>
    if b.completeness_score ≤ a.completeness_score then a :: b :: bs
    else b :: insertByScore a bs

/-- Model of `ranked_outfits.sort(key=..., reverse=True)`:
Python's stable descending sort (image_search.py:320 and 469).  A stable sort
by a total preorder is unique, so insertion sort reproduces Timsort's output. -/
def sortByScoreDesc : List RecommendedOutfit → List RecommendedOutfit
  | [] => []
  | a :: rest => insertByScore a (sortByScoreDesc rest)

/-- Method `ImageSearchEngine.find_similar_outfit_v2` (image_search.py:181-331).
`encode` stands for `self.get_image_embeddings` (the DINOv2 encoder);
`images` is the list of `(image, clothing_type)` pairs. -/
def find_similar_outfit_v2 (encode : List Img → List (List ℚ))
    (images : List (Img × String)) (wardrobe_object_names : List String)
    (sampled_outfit_ids : List String) (qdrant : QdrantService)
    (limit_outfits : ℕ) : Except SearchError (List RecommendedOutfit) :=
  if images.isEmpty ∨ wardrobe_object_names.isEmpty ∨
      images.length ≠ wardrobe_object_names.length then
    .error .valueError
  else
    let wardrobe_embeddings := encode (images.map Prod.fst)
    let wardrobe_clothing_types := images.map Prod.snd
    if npSize wardrobe_embeddings = 0 then .ok []
    else
      match stage2V2 qdrant.get_outfit_vectors wardrobe_embeddings
          wardrobe_clothing_types wardrobe_object_names sampled_outfit_ids with
      | .error e => .error e
      | .ok ranked => .ok ((sortByScoreDesc ranked).take limit_outfits)

/-- Stage 1 of `find_similar_outfit` (image_search.py:390-400): for each
wardrobe embedding, `search_vectors(query_vector, limit=50, score_threshold)`;
collect `point.payload["outfit_id"]` whenever the key is present into the set
`candidate_outfit_ids`, modelled as a first-insertion-order deduplicated
list. -/
def candidateIdsV1 (search : List ℚ → ℕ → ℚ → List ScoredPoint)
    (wEmb : List (List ℚ)) (score_threshold : ℚ) : List String :=
  wEmb.foldl
    (fun acc row =>
      (search row 50 score_threshold).foldl
        (fun acc2 p =>
          match lookupStr "outfit_id" p.payload with
          | some oid => if oid ∈ acc2 then acc2 else acc2 ++ [oid]
          | none => acc2)
        acc)
    []

/-- Model of `np.argmax` over a similarity column (image_search.py:442): index of the
first maximal element (0 for the empty list, which the source never hits
because the wardrobe is validated non-empty). -/
def argmaxIdx (l : List ℚ) : ℕ :=
  (List.range l.length).foldl
    (fun best j => if l.getD best 0 < l.getD j 0 then j else best) 0

/-- One iteration of the re-ranking loop of `find_similar_outfit`
(image_search.py:440-455): `similarities = similarity_matrix[:, j]` is the
list of dot products of every wardrobe embedding with this outfit item's
vector; take `np.argmax`, build a `MatchedItem` — with no clothing-type gate
and no used-index bookkeeping — and record its score. -/
def scoreItemV1 (wEmb : List (List ℚ)) (wNames : List String)
    (r : Record) : MatchedItem × ℚ :=
  let similarities := wEmb.map (fun w => dot w r.vector)
  let best_wardrobe_idx := argmaxIdx similarities
  let best_score := similarities.getD best_wardrobe_idx 0
  ({ outfit_item_id := r.id,
     score := best_score,
     wardrobe_image_index := some (best_wardrobe_idx : ℤ),
     wardrobe_image_object_name := some (wNames.getD best_wardrobe_idx ""),
     suggested_item_product_link := none,
     suggested_item_image_link := none },
   best_score)

/-- The whole re-ranking loop body of `find_similar_outfit` for one candidate
outfit: one `MatchedItem` and one score per indexed outfit item. -/
def scoreOutfitV1 (wEmb : List (List ℚ)) (wNames : List String)
    (records : List Record) : List MatchedItem × List ℚ :=
  (records.map (scoreItemV1 wEmb wNames)).unzip

/-- The candidate loop of `find_similar_outfit` Stage 2
(image_search.py:414-466): fetch each candidate's indexed points (a raised
exception aborts — the method's outer `try` re-raises), skip candidates with
no records, otherwise append a `RecommendedOutfit` whose completeness score is
`float(np.mean(outfit_scores))`. -/
def stage2V1 (fetch : String → Except SearchError (List Record))
    (wEmb : List (List ℚ)) (wNames : List String) :
    List String → Except SearchError (List RecommendedOutfit)
  | [] => .ok []
  | oid :: rest =>
    match fetch oid with
    | .error e => .error e
    | .ok records =>
      if records.isEmpty then
        stage2V1 fetch wEmb wNames rest
      else
        match stage2V1 fetch wEmb wNames rest with
        | .error e => .error e
        | .ok tail =>
          .ok ({ outfit_id := oid,
                 completeness_score :=
                   (scoreOutfitV1 wEmb wNames records).2.sum /
                     ((scoreOutfitV1 wEmb wNames records).2.length : ℚ),
                 «matches» := (scoreOutfitV1 wEmb wNames records).1 } :: tail)

/-- Method `ImageSearchEngine.find_similar_outfit` (image_search.py:333-484).
`encode` stands for `self.get_image_embeddings`.  The outer
`try/except` logs and re-raises, so a raised exception is returned
unchanged. -/
def find_similar_outfit (encode : List Img → List (List ℚ))
    (images : List Img) (wardrobe_object_names : List String)
    (qdrant : QdrantService) (score_threshold : ℚ)
    (limit_outfits : ℕ) : Except SearchError (List RecommendedOutfit) :=
  if images.isEmpty ∨ images.length ≠ wardrobe_object_names.length then
    .error .valueError
  else
    let wardrobe_embeddings := encode images
    if npSize wardrobe_embeddings = 0 then .ok []
    else
      let candidate_outfit_ids :=
        candidateIdsV1 qdrant.search_vectors wardrobe_embeddings score_threshold
      if candidate_outfit_ids.isEmpty then .ok []
      else
        match stage2V1 qdrant.get_outfit_vectors wardrobe_embeddings
            wardrobe_object_names candidate_outfit_ids with
        | .error e => .error e
        | .ok ranked => .ok ((sortByScoreDesc ranked).take limit_outfits)

/-! ## Image preprocessing (`encoding_models.py`, for C9) -/

/-- A decoded in-memory PIL image.  `valid` records whether the underlying
pixel data is decodable/supported (the property `convert("RGB")` would need);
the engine-level claims never inspect it. -/
structure PILImage where
  valid : Bool
deriving DecidableEq, Repr

/-- The argument of `DinoV2ImageEncoder._load_and_preprocess_image`
(encoding_models.py:72-74): either a path string or an in-memory
`PIL.Image`. -/
inductive ImageInput where
  | strPath (s : String)
  | pilImage (img : PILImage)
deriving DecidableEq, Repr

/-- Exceptions the preprocessing path can raise: `unboundLocalError` is
Python's `UnboundLocalError` (a local read before any assignment);
`imageOpenError` stands for the decode errors `PIL.Image.open` raises on a
corrupt or unsupported file. -/
inductive PreprocessError where
  | unboundLocalError
  | imageOpenError
deriving DecidableEq, Repr

/-- The preprocessed image tensor produced by `self.transform(image)`; its
content is irrelevant to the claims, only which inputs reach it. -/
structure Tensor where
  fromImage : PILImage
deriving DecidableEq, Repr

/-- Model of `image.convert("RGB")` (encoding_models.py:87), an image-to-image
map. -/
def convertRGB (img : PILImage) : PILImage := img

/-- Method `DinoV2ImageEncoder._load_and_preprocess_image`
(encoding_models.py:72-89),
translated statement by statement.  The body is

```
if isinstance(image_input, str):
    image = Image.open(image_input)
image = image.convert("RGB")
return self.transform(image)
```

The local variable `image` is assigned only inside the `isinstance(..., str)`
branch.  For a `PIL.Image` input the branch is skipped, so the read
`image.convert("RGB")` hits an unassigned local and Python raises
`UnboundLocalError` — before `convert` or `transform` ever run.
`openImage` is the collaborator `PIL.Image.open`. -/
def loadAndPreprocessImage
    (openImage : String → Except PreprocessError PILImage) :
    ImageInput → Except PreprocessError Tensor
  | .strPath s =>
    match openImage s with
    | .error e => .error e
    | .ok image => .ok ⟨convertRGB image⟩
  | .pilImage _ => .error .unboundLocalError

/-! ## Concrete fixtures used by counterexamples and witnesses

A two-dimensional embedding space: image handle `0` embeds to `[1, 0]`
(a shirt photo), any other handle to `[0, 1]` (a pants photo).  The qdrant
fixtures index a single outfit `"o1"`. -/

/-- Encoder fixture: handle `0` ↦ `[1, 0]`, other handles ↦ `[0, 1]`. -/
def cexEncode : List Img → List (List ℚ) :=
  fun imgs => imgs.map (fun i => if i = 0 then [1, 0] else [0, 1])

/-- Outfit `"o1"` indexed with a shirt item `"i1"` (vector `[1, 0]`) and a
pants item `"i2"` (vector `[0, 1]`); Stage 1 search always reports a point of
outfit `"o1"`. -/
def cexQdrantTypes : QdrantService where
  search_vectors := fun _ _ _ => [⟨"p1", 1, [("outfit_id", "o1")]⟩]
  get_outfit_vectors := fun oid =>
    if oid = "o1" then
      .ok [⟨"i1", [1, 0], some [("outfit_id", "o1"), ("clothing_type", "shirt")]⟩,
           ⟨"i2", [0, 1], some [("outfit_id", "o1"), ("clothing_type", "pants")]⟩]
    else .ok []

/-- Outfit `"o1"` indexed with two identical shirt items, for exhibiting a
duplicated wardrobe index in `find_similar_outfit`. -/
def cexQdrantDup : QdrantService where
  search_vectors := fun _ _ _ => [⟨"p1", 1, [("outfit_id", "o1")]⟩]
  get_outfit_vectors := fun oid =>
    if oid = "o1" then
      .ok [⟨"i1", [1, 0], some [("outfit_id", "o1"), ("clothing_type", "shirt")]⟩,
           ⟨"i2", [1, 0], some [("outfit_id", "o1"), ("clothing_type", "shirt")]⟩]
    else .ok []

/-- A qdrant whose fetch raises for outfit `"bad"` and succeeds with one shirt
item for every other outfit id; Stage 1 search reports a point of outfit
`"bad"`. -/
def cexQdrantFail : QdrantService where
  search_vectors := fun _ _ _ => [⟨"p1", 1, [("outfit_id", "bad")]⟩]
  get_outfit_vectors := fun oid =>
    if oid = "bad" then .error .upstream
    else .ok [⟨"i1", [1, 0], some [("clothing_type", "shirt")]⟩]

/-- A qdrant whose Stage 1 search finds nothing (e.g. an impossibly high
score threshold). -/
def cexQdrantNoHits : QdrantService where
  search_vectors := fun _ _ _ => []
  get_outfit_vectors := fun _ => .ok []

/-- An encoder that produces no embeddings (`np.array([])`, `size == 0`). -/
def cexEncodeEmpty : List Img → List (List ℚ) := fun _ => []

/-- The single match v2 produces in the spec's Scenario A (shirt slot matched
to wardrobe item 0 at similarity 1). -/
def scenAMatch : MatchedItem :=
  { outfit_item_id := "i1", score := 1, wardrobe_image_index := some 0,
    wardrobe_image_object_name := some "w0",
    suggested_item_product_link := none, suggested_item_image_link := none }

/-- The single `RecommendedOutfit` v2 returns in the spec's Scenario A: the
pants gap contributed `-10000`, so the completeness score is
`(1 + (-10000)) / 2 = -9999/2`. -/
def scenAResult : RecommendedOutfit :=
  { outfit_id := "o1", completeness_score := -9999/2, «matches» := [scenAMatch] }

/-- First match of `find_similar_outfit` on the `cexQdrantDup` fixture. -/
def dupMatch1 : MatchedItem :=
  { outfit_item_id := "i1", score := 1, wardrobe_image_index := some 0,
    wardrobe_image_object_name := some "w0",
    suggested_item_product_link := none, suggested_item_image_link := none }

/-- Second match of `find_similar_outfit` on the `cexQdrantDup` fixture —
same wardrobe index as the first. -/
def dupMatch2 : MatchedItem :=
  { outfit_item_id := "i2", score := 1, wardrobe_image_index := some 0,
    wardrobe_image_object_name := some "w0",
    suggested_item_product_link := none, suggested_item_image_link := none }

/-- The `RecommendedOutfit` `find_similar_outfit` returns on the
`cexQdrantDup` fixture. -/
def dupResult : RecommendedOutfit :=
  { outfit_id := "o1", completeness_score := 1,
    «matches» := [dupMatch1, dupMatch2] }

/-! ## Predicates used to state the claims -/

/-- Statement predicate: `MatchedItem` `m` is exactly what the v2 greedy matcher records when it
pairs wardrobe index `j` with outfit item record `r`: in particular the
wardrobe item's clothing type (`wTypes.getD j ""`) equals the outfit item's
indexed clothing type, and no suggestion links are carried. -/
def MatchFrom (wEmb : List (List ℚ)) (wTypes wNames : List String)
    (m : MatchedItem) (r : Record) : Prop :=
  ∃ j : ℕ, j < wEmb.length ∧
    m.outfit_item_id = r.id ∧
    m.wardrobe_image_index = some (j : ℤ) ∧
    m.wardrobe_image_object_name = some (wNames.getD j "") ∧
    wTypes.getD j "" = payloadClothingType r ∧
    m.score = dot (wEmb.getD j []) r.vector ∧
    m.suggested_item_product_link = none ∧
    m.suggested_item_image_link = none

/-- Invariant of `bestWardrobeMatch`'s inner fold: the accumulator is either
still the initial `(-1.0, -1)` or records a genuine same-type, unused
wardrobe index together with its similarity. -/
def BMInv (wEmb : List (List ℚ)) (wTypes : List String) (used : List ℕ)
    (itemEmb : List ℚ) (itemType : String) (acc : ℚ × ℤ) : Prop :=
  acc.2 = -1 ∨ ∃ j : ℕ, acc.2 = (j : ℤ) ∧ j < wEmb.length ∧
    wTypes.getD j "" = itemType ∧ j ∉ used ∧
    acc.1 = dot (wEmb.getD j []) itemEmb

/-- Invariant of the v2 outfit-item loop: every recorded match points into the
used set, and no two recorded matches share a wardrobe index. -/
def V2Inv (st : V2State) : Prop :=
  (∀ m ∈ st.matched, ∃ j : ℕ, m.wardrobe_image_index = some (j : ℤ) ∧
    j ∈ st.used) ∧
  (st.matched.filterMap (fun m => m.wardrobe_image_index)).Nodup

/-! ## Counterexamples to the claims that fail on the code -/

/-- C1 (counterexample).  The claim asserts type-gating for *both* search
operations, but `find_similar_outfit` has no clothing-type gate at all: with a
wardrobe of one shirt image (handle 0, clothing type `"shirt"`, as the same
wardrobe is typed in the companion `find_similar_outfit_v2` call), it pairs
that wardrobe item with outfit item `"i2"` whose indexed `clothing_type` is
`"pants"`. -/
theorem C1_counterexample :
    find_similar_outfit cexEncode [0] ["w0"] cexQdrantTypes (7/10) 15 =
      .ok [{ outfit_id := "o1", completeness_score := 1/2,
             «matches» :=
               [{ outfit_item_id := "i1", score := 1,
                  wardrobe_image_index := some 0,
                  wardrobe_image_object_name := some "w0",
                  suggested_item_product_link := none,
                  suggested_item_image_link := none },
                { outfit_item_id := "i2", score := 0,
                  wardrobe_image_index := some 0,
                  wardrobe_image_object_name := some "w0",
                  suggested_item_product_link := none,
                  suggested_item_image_link := none }] }] ∧
    (∃ recs, cexQdrantTypes.get_outfit_vectors "o1" = .ok recs ∧
      ∃ rec ∈ recs, rec.id = "i2" ∧ payloadClothingType rec = "pants") ∧
    ([((0 : Img), "shirt")].map Prod.snd).getD 0 "" = "shirt" := by
  refine ⟨?_, ⟨_, rfl, ?_⟩, rfl⟩
  · simp [find_similar_outfit, candidateIdsV1, stage2V1, scoreOutfitV1,
      scoreItemV1, argmaxIdx, dot, npSize, sortByScoreDesc, insertByScore,
      cexEncode, cexQdrantTypes, lookupStr, List.range_succ] <;> norm_num
  · exact ⟨⟨"i2", [0, 1], some [("outfit_id", "o1"), ("clothing_type", "pants")]⟩,
      by simp, rfl, rfl⟩

/-- C2 (counterexample).  The claim asserts the one-to-one property for *both*
search operations, but `find_similar_outfit` keeps no used-index set: with one
wardrobe item and an outfit of two identical shirt items, both returned
`MatchedItem`s reference `wardrobe_image_index = 0`. -/
theorem C2_counterexample :
    find_similar_outfit cexEncode [0] ["w0"] cexQdrantDup (7/10) 15 =
      .ok [{ outfit_id := "o1", completeness_score := 1,
             «matches» :=
               [{ outfit_item_id := "i1", score := 1,
                  wardrobe_image_index := some 0,
                  wardrobe_image_object_name := some "w0",
                  suggested_item_product_link := none,
                  suggested_item_image_link := none },
                { outfit_item_id := "i2", score := 1,
                  wardrobe_image_index := some 0,
                  wardrobe_image_object_name := some "w0",
                  suggested_item_product_link := none,
                  suggested_item_image_link := none }] }] ∧
    ¬ (([{ outfit_item_id := "i1", score := 1,
           wardrobe_image_index := some 0,
           wardrobe_image_object_name := some "w0",
           suggested_item_product_link := none,
           suggested_item_image_link := none },
         { outfit_item_id := "i2", score := 1,
           wardrobe_image_index := some 0,
           wardrobe_image_object_name := some "w0",
           suggested_item_product_link := none,
           suggested_item_image_link := none }] :
        List MatchedItem).filterMap
          (fun m => m.wardrobe_image_index)).Nodup := by
  constructor
  · simp [find_similar_outfit, candidateIdsV1, stage2V1, scoreOutfitV1,
      scoreItemV1, argmaxIdx, dot, npSize, sortByScoreDesc, insertByScore,
      cexEncode, cexQdrantDup, lookupStr, List.range_succ] <;> norm_num
  · simp

/-- C3 (counterexample).  Scenario A of the spec: wardrobe = one shirt
(identical embedding), candidate outfit = shirt slot + pants slot.  The claim
expects a suggestion-carrying `MatchedItem` for the pants gap with score
`0.5 × 1.0` and completeness `0.75`; the code instead emits *no* `MatchedItem`
for the gap and appends the score `-10000`, so `matches` has one entry and the
completeness score is `(1 + (-10000))/2 = -9999/2 ≠ 3/4`. -/
theorem C3_counterexample :
    find_similar_outfit_v2 cexEncode [(0, "shirt")] ["w0"] ["o1"]
        cexQdrantTypes 10 =
      .ok [{ outfit_id := "o1", completeness_score := -9999/2,
             «matches» :=
               [{ outfit_item_id := "i1", score := 1,
                  wardrobe_image_index := some 0,
                  wardrobe_image_object_name := some "w0",
                  suggested_item_product_link := none,
                  suggested_item_image_link := none }] }] ∧
    ((-9999 : ℚ)/2 ≠ 3/4) := by
  constructor
  · simp [find_similar_outfit_v2, stage2V2, scoreOutfitV2, v2Step,
      bestWardrobeMatch, dot, npSize, sortByScoreDesc, insertByScore,
      cexEncode, cexQdrantTypes, payloadClothingType, meanOrZero,
      List.range_succ, lookupStr] <;> norm_num
  · norm_num

/-- C4 (counterexample).  In the Scenario A instance,
`find_similar_outfit_v2` returns an outfit whose `matches` holds 1 entry while
the outfit has 2 indexed points, and whose completeness score `-9999/2` is the
mean of 2 per-item scores, not of `len(matches) = 1` scores (the mean of the
single match score would be `1`). -/
theorem C4_counterexample :
    (∃ recs, cexQdrantTypes.get_outfit_vectors "o1" = .ok recs ∧
        recs.length = 2) ∧
    find_similar_outfit_v2 cexEncode [(0, "shirt")] ["w0"] ["o1"]
        cexQdrantTypes 10 =
      .ok [{ outfit_id := "o1", completeness_score := -9999/2,
             «matches» :=
               [{ outfit_item_id := "i1", score := 1,
                  wardrobe_image_index := some 0,
                  wardrobe_image_object_name := some "w0",
                  suggested_item_product_link := none,
                  suggested_item_image_link := none }] }] ∧
    (1 : ℕ) ≠ 2 ∧ ((-9999 : ℚ)/2 ≠ 1/1) := by
  refine ⟨⟨_, rfl, rfl⟩, ?_, by norm_num, by norm_num⟩
  simp [find_similar_outfit_v2, stage2V2, scoreOutfitV2, v2Step,
    bestWardrobeMatch, dot, npSize, sortByScoreDesc, insertByScore,
    cexEncode, cexQdrantTypes, payloadClothingType, meanOrZero,
    List.range_succ, lookupStr] <;> norm_num

/-- C8 (counterexample).  A failing vector-index fetch for candidate `"bad"`
is *not* caught: `find_similar_outfit_v2` aborts with the upstream error even
though candidate `"o2"` scores successfully when `"bad"` is absent. -/
theorem C8_counterexample :
    find_similar_outfit_v2 cexEncode [(0, "shirt")] ["w0"] ["bad", "o2"]
        cexQdrantFail 10 = .error .upstream ∧
    find_similar_outfit_v2 cexEncode [(0, "shirt")] ["w0"] ["o2"]
        cexQdrantFail 10 =
      .ok [{ outfit_id := "o2", completeness_score := 1,
             «matches» :=
               [{ outfit_item_id := "i1", score := 1,
                  wardrobe_image_index := some 0,
                  wardrobe_image_object_name := some "w0",
                  suggested_item_product_link := none,
                  suggested_item_image_link := none }] }] := by
  constructor
  · simp [find_similar_outfit_v2, stage2V2, npSize, cexEncode, cexQdrantFail]
  · simp [find_similar_outfit_v2, stage2V2, scoreOutfitV2, v2Step,
      bestWardrobeMatch, dot, npSize, sortByScoreDesc, insertByScore,
      cexEncode, cexQdrantFail, payloadClothingType, meanOrZero,
      List.range_succ, lookupStr] <;> norm_num

/-- C9 (code bug).  `_load_and_preprocess_image` declares it accepts an
in-memory `PIL.Image`, but its local `image` is assigned only in the
`isinstance(image_input, str)` branch, so *every* in-memory image — valid or
not — raises `UnboundLocalError`, while a path input is preprocessed
normally. -/
theorem C9_unbound_local :
    loadAndPreprocessImage (fun _ => .ok ⟨true⟩) (.pilImage ⟨true⟩) =
      .error .unboundLocalError ∧
    loadAndPreprocessImage (fun _ => .ok ⟨true⟩) (.pilImage ⟨false⟩) =
      .error .unboundLocalError ∧
    loadAndPreprocessImage (fun _ => .ok ⟨true⟩) (.strPath "photo.jpg") =
      .ok ⟨⟨true⟩⟩ := by
  exact ⟨rfl, rfl, rfl⟩

/-! ## Structural lemmas about the v2 greedy matcher -/

/-- The inner fold of `bestWardrobeMatch` preserves `BMInv` over any index
list staying below `wEmb.length`. -/
theorem bestMatch_foldl_keep (wEmb : List (List ℚ)) (wTypes : List String)
    (used : List ℕ) (itemEmb : List ℚ) (itemType : String) :
    ∀ (l : List ℕ) (acc : ℚ × ℤ),
      BMInv wEmb wTypes used itemEmb itemType acc →
      (∀ j ∈ l, j < wEmb.length) →
      BMInv wEmb wTypes used itemEmb itemType
        (l.foldl
          (fun acc j =>
            if wTypes.getD j "" = itemType ∧ j ∉ used then
              let s := dot (wEmb.getD j []) itemEmb
              if acc.1 < s then (s, (j : ℤ)) else acc
            else acc)
          acc) := by
  intro l
  induction l with
  | nil => intro acc hacc _; exact hacc
  | cons j rest ih =>
    intro acc hacc hlt
    rw [List.foldl_cons]
    refine ih _ ?_ (fun i hi => hlt i (List.mem_cons_of_mem _ hi))
    by_cases hc : wTypes.getD j "" = itemType ∧ j ∉ used
    · rw [if_pos hc]
      dsimp only
      by_cases hs : acc.1 < dot (wEmb.getD j []) itemEmb
      · rw [if_pos hs]
        exact Or.inr ⟨j, rfl, hlt j (List.mem_cons_self j rest), hc.1, hc.2, rfl⟩
      · rw [if_neg hs]; exact hacc
    · rw [if_neg hc]; exact hacc

/-- The result of `bestWardrobeMatch` satisfies `BMInv`: either no match was
found (`best_wardrobe_idx = -1`) or the reported index is a genuine same-type
unused wardrobe index with the reported similarity. -/
theorem bestWardrobeMatch_spec (wEmb : List (List ℚ)) (wTypes : List String)
    (used : List ℕ) (itemEmb : List ℚ) (itemType : String) :
    BMInv wEmb wTypes used itemEmb itemType
      (bestWardrobeMatch wEmb wTypes used itemEmb itemType) := by
  unfold bestWardrobeMatch
  exact bestMatch_foldl_keep wEmb wTypes used itemEmb itemType
    (List.range wEmb.length) (-1, -1) (Or.inl rfl)
    (fun j hj => List.mem_range.mp hj)

/-- If no index satisfies the type-and-unused filter, the fold of
`bestWardrobeMatch` never moves off its initial accumulator. -/
theorem bestMatch_foldl_frozen (wEmb : List (List ℚ)) (wTypes : List String)
    (used : List ℕ) (itemEmb : List ℚ) (itemType : String) :
    ∀ (l : List ℕ) (acc : ℚ × ℤ),
      (∀ j ∈ l, ¬ (wTypes.getD j "" = itemType ∧ j ∉ used)) →
      (l.foldl
        (fun acc j =>
          if wTypes.getD j "" = itemType ∧ j ∉ used then
            let s := dot (wEmb.getD j []) itemEmb
            if acc.1 < s then (s, (j : ℤ)) else acc
          else acc)
        acc) = acc := by
  intro l
  induction l with
  | nil => intro acc _; rfl
  | cons j rest ih =>
    intro acc hno
    rw [List.foldl_cons, if_neg (hno j (List.mem_cons_self j rest))]
    exact ih acc (fun i hi => hno i (List.mem_cons_of_mem _ hi))

/-- When every same-type wardrobe index is already used (in particular when
the wardrobe has no item of the outfit item's type), `bestWardrobeMatch`
returns the initial `(-1.0, -1)`. -/
theorem bestWardrobeMatch_none (wEmb : List (List ℚ)) (wTypes : List String)
    (used : List ℕ) (itemEmb : List ℚ) (itemType : String)
    (h : ∀ j : ℕ, j < wEmb.length → wTypes.getD j "" = itemType → j ∈ used) :
    bestWardrobeMatch wEmb wTypes used itemEmb itemType = (-1, -1) := by
  unfold bestWardrobeMatch
  exact bestMatch_foldl_frozen wEmb wTypes used itemEmb itemType
    (List.range wEmb.length) (-1, -1)
    (fun j hj hc => hc.2 (h j (List.mem_range.mp hj) hc.1))

/-- Every `MatchedItem` accumulated by the v2 outfit-item loop either was
already in the state or originates, via `MatchFrom`, from one of the folded
records. -/
theorem v2_foldl_matched_mem (wEmb : List (List ℚ)) (wTypes wNames : List String) :
    ∀ (recs : List Record) (st : V2State) (m : MatchedItem),
      m ∈ (recs.foldl (v2Step wEmb wTypes wNames) st).matched →
      m ∈ st.matched ∨ ∃ r ∈ recs, MatchFrom wEmb wTypes wNames m r := by
  intro recs
  induction recs with
  | nil => intro st m hm; exact Or.inl hm
  | cons r rest ih =>
    intro st m hm
    rw [List.foldl_cons] at hm
    rcases ih _ m hm with hin | ⟨r', hr', hmf⟩
    · unfold v2Step at hin
      dsimp only at hin
      by_cases hb :
          (bestWardrobeMatch wEmb wTypes st.used r.vector
            (payloadClothingType r)).2 ≠ -1
      · rw [if_pos hb] at hin
        rcases List.mem_append.mp hin with hold | hnew
        · exact Or.inl hold
        · rw [List.mem_singleton] at hnew
          subst hnew
          rcases bestWardrobeMatch_spec wEmb wTypes st.used r.vector
              (payloadClothingType r) with hneg | ⟨j, hj2, hjlt, hjty, _, hjsc⟩
          · exact absurd hneg hb
          · refine Or.inr ⟨r, List.mem_cons_self r rest, j, hjlt, rfl, ?_, ?_, hjty,
              ?_, rfl, rfl⟩
            · simpa using congrArg some hj2
            · simp [hj2, Int.toNat_natCast]
            · simpa using hjsc
      · rw [if_neg hb] at hin
        exact Or.inl hin
    · exact Or.inr ⟨r', List.mem_cons_of_mem _ hr', hmf⟩

/-- The v2 outfit-item loop preserves `V2Inv`: match indices stay inside the
used set and remain pairwise distinct. -/
theorem v2_foldl_inv (wEmb : List (List ℚ)) (wTypes wNames : List String) :
    ∀ (recs : List Record) (st : V2State),
      V2Inv st → V2Inv (recs.foldl (v2Step wEmb wTypes wNames) st) := by
  intro recs
  induction recs with
  | nil => intro st h; exact h
  | cons r rest ih =>
    intro st h
    rw [List.foldl_cons]
    refine ih _ ?_
    unfold v2Step
    dsimp only
    by_cases hb :
        (bestWardrobeMatch wEmb wTypes st.used r.vector
          (payloadClothingType r)).2 ≠ -1
    · rw [if_pos hb]
      rcases bestWardrobeMatch_spec wEmb wTypes st.used r.vector
          (payloadClothingType r) with hneg | ⟨j, hj2, _, _, hjnot, _⟩
      · exact absurd hneg hb
      constructor
      · intro m hmem
        rcases List.mem_append.mp hmem with hold | hnew
        · obtain ⟨j', hj', hju⟩ := h.1 m hold
          exact ⟨j', hj', List.mem_append_left _ hju⟩
        · rw [List.mem_singleton] at hnew
          subst hnew
          refine ⟨j, ?_, ?_⟩
          · simpa using congrArg some hj2
          · simp [hj2, Int.toNat_natCast]
      · rw [List.filterMap_append, List.nodup_append]
        refine ⟨h.2, by simp, ?_⟩
        intro a ha hb2
        simp only [List.filterMap_cons, List.filterMap_nil] at hb2
        rcases List.mem_filterMap.mp ha with ⟨m', hm', hidx⟩
        obtain ⟨j', hj', hju⟩ := h.1 m' hm'
        rw [hj'] at hidx
        have haj : a = (j' : ℤ) := by
          simpa using hidx.symm
        have hmem2 : a ∈ [(bestWardrobeMatch wEmb wTypes st.used r.vector
            (payloadClothingType r)).2] := by simpa using hb2
        rw [List.mem_singleton] at hmem2
        rw [hj2] at hmem2
        have : j' = j := by
          have := haj.symm.trans hmem2
          exact_mod_cast this
        subst this
        exact hjnot hju
    · rw [if_neg hb]
      exact h

/-- The v2 outfit-item loop appends exactly one score per record (matched
items contribute their similarity, gaps contribute the `-10000` constant). -/
theorem v2_foldl_scores_length (wEmb : List (List ℚ)) (wTypes wNames : List String) :
    ∀ (recs : List Record) (st : V2State),
      ((recs.foldl (v2Step wEmb wTypes wNames) st).scores).length =
        st.scores.length + recs.length := by
  intro recs
  induction recs with
  | nil => intro st; rfl
  | cons r rest ih =>
    intro st
    rw [List.foldl_cons, ih]
    have hstep : ((v2Step wEmb wTypes wNames st r).scores).length =
        st.scores.length + 1 := by
      unfold v2Step
      dsimp only
      by_cases hb :
          (bestWardrobeMatch wEmb wTypes st.used r.vector
            (payloadClothingType r)).2 ≠ -1
      · rw [if_pos hb]; simp
      · rw [if_neg hb]; simp
    rw [hstep]
    simp [List.length_cons]
    omega

/-- The v2 outfit-item loop appends at most one `MatchedItem` per record. -/
theorem v2_foldl_matched_length (wEmb : List (List ℚ)) (wTypes wNames : List String) :
    ∀ (recs : List Record) (st : V2State),
      ((recs.foldl (v2Step wEmb wTypes wNames) st).matched).length ≤
        st.matched.length + recs.length := by
  intro recs
  induction recs with
  | nil => intro st; simp
  | cons r rest ih =>
    intro st
    rw [List.foldl_cons]
    refine le_trans (ih _) ?_
    have hstep : ((v2Step wEmb wTypes wNames st r).matched).length ≤
        st.matched.length + 1 := by
      unfold v2Step
      dsimp only
      by_cases hb :
          (bestWardrobeMatch wEmb wTypes st.used r.vector
            (payloadClothingType r)).2 ≠ -1
      · rw [if_pos hb]; simp
      · rw [if_neg hb]; simp
    simp only [List.length_cons]
    omega

/-- Characterisation of the candidate loop of `find_similar_outfit_v2`: every
returned `RecommendedOutfit` comes from some sampled outfit id whose fetch
succeeded with a non-empty record list, carries exactly the matcher's
`matched_items` (non-empty, by the `if matched_items:` gate) and the mean of
the matcher's `outfit_scores`. -/
theorem stage2V2_mem (fetch : String → Except SearchError (List Record))
    (wEmb : List (List ℚ)) (wTypes wNames : List String) :
    ∀ (ids : List String) (res : List RecommendedOutfit),
      stage2V2 fetch wEmb wTypes wNames ids = .ok res →
      ∀ r ∈ res, ∃ oid, oid ∈ ids ∧ ∃ recs, fetch oid = .ok recs ∧
        recs ≠ [] ∧ r.outfit_id = oid ∧
        r.«matches» = (scoreOutfitV2 wEmb wTypes wNames recs).matched ∧
        (scoreOutfitV2 wEmb wTypes wNames recs).matched ≠ [] ∧
        r.completeness_score =
          meanOrZero (scoreOutfitV2 wEmb wTypes wNames recs).scores := by
  intro ids
  induction ids with
  | nil =>
    intro res h r hr
    simp only [stage2V2] at h
    injection h with h'
    subst h'
    cases hr
  | cons oid rest ih =>
    intro res h r hr
    simp only [stage2V2] at h
    cases hf : fetch oid with
    | error e => rw [hf] at h; exact absurd h (by simp)
    | ok records =>
      rw [hf] at h
      dsimp only at h
      by_cases hemp : records.isEmpty = true
      · rw [if_pos hemp] at h
        obtain ⟨oid', ho, hrest⟩ := ih res h r hr
        exact ⟨oid', List.mem_cons_of_mem _ ho, hrest⟩
      · rw [if_neg hemp] at h
        cases hrec : stage2V2 fetch wEmb wTypes wNames rest with
        | error e => rw [hrec] at h; exact absurd h (by simp)
        | ok tail =>
          rw [hrec] at h
          dsimp only at h
          by_cases hm :
              (scoreOutfitV2 wEmb wTypes wNames records).matched.isEmpty = true
          · rw [if_pos hm] at h
            injection h with h'
            subst h'
            obtain ⟨oid', ho, hrest⟩ := ih _ hrec r hr
            exact ⟨oid', List.mem_cons_of_mem _ ho, hrest⟩
          · rw [if_neg hm] at h
            injection h with h'
            subst h'
            rcases List.mem_cons.mp hr with hhead | htail
            · subst hhead
              refine ⟨oid, List.mem_cons_self oid rest, records, hf, ?_, rfl, rfl,
                ?_, rfl⟩
              · intro hnil
                exact hemp (by simp [hnil])
              · intro hnil
                exact hm (by simp [hnil])
            · obtain ⟨oid', ho, hrest⟩ := ih tail hrec r htail
              exact ⟨oid', List.mem_cons_of_mem _ ho, hrest⟩

/-- Stable insertion does not change list membership. -/
theorem mem_insertByScore (a x : RecommendedOutfit) :
    ∀ l : List RecommendedOutfit, x ∈ insertByScore a l ↔ x = a ∨ x ∈ l := by
  intro l
  induction l with
  | nil => simp [insertByScore]
  | cons b bs ih =>
    by_cases h : b.completeness_score ≤ a.completeness_score
    · simp [insertByScore, h]
    · simp [insertByScore, h, ih]
      tauto

/-- The stable descending sort does not change list membership. -/
theorem mem_sortByScoreDesc (x : RecommendedOutfit) :
    ∀ l : List RecommendedOutfit, x ∈ sortByScoreDesc l ↔ x ∈ l := by
  intro l
  induction l with
  | nil => simp [sortByScoreDesc]
  | cons a rest ih =>
    simp [sortByScoreDesc, mem_insertByScore, ih]

/-- Top-level characterisation of `find_similar_outfit_v2` results: every
returned `RecommendedOutfit` is one of the per-candidate scoring results
(sorting and truncation only select among them). -/
theorem find_similar_outfit_v2_mem (encode : List Img → List (List ℚ))
    (images : List (Img × String)) (wNames ids : List String)
    (qdrant : QdrantService) (k : ℕ) (res : List RecommendedOutfit)
    (h : find_similar_outfit_v2 encode images wNames ids qdrant k = .ok res) :
    ∀ r ∈ res, ∃ oid, oid ∈ ids ∧ ∃ recs,
      qdrant.get_outfit_vectors oid = .ok recs ∧ recs ≠ [] ∧
      r.outfit_id = oid ∧
      r.«matches» = (scoreOutfitV2 (encode (images.map Prod.fst))
        (images.map Prod.snd) wNames recs).matched ∧
      (scoreOutfitV2 (encode (images.map Prod.fst))
        (images.map Prod.snd) wNames recs).matched ≠ [] ∧
      r.completeness_score = meanOrZero (scoreOutfitV2
        (encode (images.map Prod.fst)) (images.map Prod.snd) wNames
        recs).scores := by
  intro r hr
  unfold find_similar_outfit_v2 at h
  by_cases hv : images.isEmpty = true ∨ wNames.isEmpty = true ∨
      images.length ≠ wNames.length
  · rw [if_pos hv] at h
    exact absurd h (by simp)
  · rw [if_neg hv] at h
    dsimp only at h
    by_cases hn : npSize (encode (images.map Prod.fst)) = 0
    · rw [if_pos hn] at h
      injection h with h'
      subst h'
      cases hr
    · rw [if_neg hn] at h
      cases hst : stage2V2 qdrant.get_outfit_vectors
          (encode (images.map Prod.fst)) (images.map Prod.snd) wNames ids with
      | error e => rw [hst] at h; exact absurd h (by simp)
      | ok ranked =>
        rw [hst] at h
        dsimp only at h
        injection h with h'
        subst h'
        have hr2 : r ∈ sortByScoreDesc ranked := List.mem_of_mem_take hr
        have hr3 : r ∈ ranked := (mem_sortByScoreDesc r ranked).mp hr2
        exact stage2V2_mem qdrant.get_outfit_vectors
          (encode (images.map Prod.fst)) (images.map Prod.snd) wNames ids
          ranked hst r hr3

/-! ## Structural lemmas about the v1 re-ranker -/

/-- v1 creates exactly one `MatchedItem` per indexed outfit item. -/
theorem scoreOutfitV1_fst_length (wEmb : List (List ℚ)) (wNames : List String)
    (records : List Record) :
    ((scoreOutfitV1 wEmb wNames records).1).length = records.length := by
  simp [scoreOutfitV1, List.unzip_fst]

/-- v1 records exactly one score per indexed outfit item. -/
theorem scoreOutfitV1_snd_length (wEmb : List (List ℚ)) (wNames : List String)
    (records : List Record) :
    ((scoreOutfitV1 wEmb wNames records).2).length = records.length := by
  simp [scoreOutfitV1, List.unzip_snd]

/-- Characterisation of the candidate loop of `find_similar_outfit`: every
returned `RecommendedOutfit` comes from some candidate id whose fetch
succeeded with a non-empty record list, carries one match per record and the
mean of the per-item scores. -/
theorem stage2V1_mem (fetch : String → Except SearchError (List Record))
    (wEmb : List (List ℚ)) (wNames : List String) :
    ∀ (ids : List String) (res : List RecommendedOutfit),
      stage2V1 fetch wEmb wNames ids = .ok res →
      ∀ r ∈ res, ∃ oid, oid ∈ ids ∧ ∃ recs, fetch oid = .ok recs ∧
        recs ≠ [] ∧ r.outfit_id = oid ∧
        r.«matches» = (scoreOutfitV1 wEmb wNames recs).1 ∧
        r.completeness_score = (scoreOutfitV1 wEmb wNames recs).2.sum /
          (((scoreOutfitV1 wEmb wNames recs).2.length : ℕ) : ℚ) := by
  intro ids
  induction ids with
  | nil =>
    intro res h r hr
    simp only [stage2V1] at h
    injection h with h'
    subst h'
    cases hr
  | cons oid rest ih =>
    intro res h r hr
    simp only [stage2V1] at h
    cases hf : fetch oid with
    | error e => rw [hf] at h; exact absurd h (by simp)
    | ok records =>
      rw [hf] at h
      dsimp only at h
      by_cases hemp : records.isEmpty = true
      · rw [if_pos hemp] at h
        obtain ⟨oid', ho, hrest⟩ := ih res h r hr
        exact ⟨oid', List.mem_cons_of_mem _ ho, hrest⟩
      · rw [if_neg hemp] at h
        cases hrec : stage2V1 fetch wEmb wNames rest with
        | error e => rw [hrec] at h; exact absurd h (by simp)
        | ok tail =>
          rw [hrec] at h
          dsimp only at h
          injection h with h'
          subst h'
          rcases List.mem_cons.mp hr with hhead | htail
          · subst hhead
            refine ⟨oid, List.mem_cons_self oid rest, records, hf, ?_, rfl, rfl,
              rfl⟩
            intro hnil
            exact hemp (by simp [hnil])
          · obtain ⟨oid', ho, hrest⟩ := ih tail hrec r htail
            exact ⟨oid', List.mem_cons_of_mem _ ho, hrest⟩

/-- Top-level characterisation of `find_similar_outfit` results. -/
theorem find_similar_outfit_mem (encode : List Img → List (List ℚ))
    (images : List Img) (wNames : List String) (qdrant : QdrantService)
    (t : ℚ) (k : ℕ) (res : List RecommendedOutfit)
    (h : find_similar_outfit encode images wNames qdrant t k = .ok res) :
    ∀ r ∈ res, ∃ oid,
      oid ∈ candidateIdsV1 qdrant.search_vectors (encode images) t ∧
      ∃ recs, qdrant.get_outfit_vectors oid = .ok recs ∧ recs ≠ [] ∧
      r.outfit_id = oid ∧
      r.«matches» = (scoreOutfitV1 (encode images) wNames recs).1 ∧
      r.completeness_score =
        (scoreOutfitV1 (encode images) wNames recs).2.sum /
          (((scoreOutfitV1 (encode images) wNames recs).2.length : ℕ) : ℚ) := by
  intro r hr
  unfold find_similar_outfit at h
  by_cases hv : images.isEmpty = true ∨ images.length ≠ wNames.length
  · rw [if_pos hv] at h
    exact absurd h (by simp)
  · rw [if_neg hv] at h
    dsimp only at h
    by_cases hn : npSize (encode images) = 0
    · rw [if_pos hn] at h
      injection h with h'
      subst h'
      cases hr
    · rw [if_neg hn] at h
      by_cases hc : (candidateIdsV1 qdrant.search_vectors (encode images)
          t).isEmpty = true
      · rw [if_pos hc] at h
        injection h with h'
        subst h'
        cases hr
      · rw [if_neg hc] at h
        cases hst : stage2V1 qdrant.get_outfit_vectors (encode images) wNames
            (candidateIdsV1 qdrant.search_vectors (encode images) t) with
        | error e => rw [hst] at h; exact absurd h (by simp)
        | ok ranked =>
          rw [hst] at h
          dsimp only at h
          injection h with h'
          subst h'
          have hr2 : r ∈ sortByScoreDesc ranked := List.mem_of_mem_take hr
          have hr3 : r ∈ ranked := (mem_sortByScoreDesc r ranked).mp hr2
          exact stage2V1_mem qdrant.get_outfit_vectors (encode images) wNames
            (candidateIdsV1 qdrant.search_vectors (encode images) t)
            ranked hst r hr3

/-! ## Skipping candidates with no indexed points (C7) -/

/-- A candidate whose fetch returns zero records contributes nothing to the
v2 candidate loop: the loop behaves as if that id had been filtered out. -/
theorem stage2V2_skip_empty (fetch : String → Except SearchError (List Record))
    (wEmb : List (List ℚ)) (wTypes wNames : List String) (oid : String)
    (h : fetch oid = .ok []) :
    ∀ ids : List String,
      stage2V2 fetch wEmb wTypes wNames ids =
        stage2V2 fetch wEmb wTypes wNames
          (ids.filter (fun x => x != oid)) := by
  intro ids
  induction ids with
  | nil => rfl
  | cons x rest ih =>
    by_cases hx : x = oid
    · subst hx
      simp only [List.filter_cons, bne_self_eq_false, Bool.false_eq_true,
        if_false]
      rw [← ih]
      simp [stage2V2, h]
    · have hxb : (x != oid) = true := by simpa using hx
      simp only [List.filter_cons, hxb, if_true]
      simp only [stage2V2]
      rw [ih]

/-- A candidate whose fetch returns zero records contributes nothing to the
v1 candidate loop. -/
theorem stage2V1_skip_empty (fetch : String → Except SearchError (List Record))
    (wEmb : List (List ℚ)) (wNames : List String) (oid : String)
    (h : fetch oid = .ok []) :
    ∀ ids : List String,
      stage2V1 fetch wEmb wNames ids =
        stage2V1 fetch wEmb wNames (ids.filter (fun x => x != oid)) := by
  intro ids
  induction ids with
  | nil => rfl
  | cons x rest ih =>
    by_cases hx : x = oid
    · subst hx
      simp only [List.filter_cons, bne_self_eq_false, Bool.false_eq_true,
        if_false]
      rw [← ih]
      simp [stage2V1, h]
    · have hxb : (x != oid) = true := by simpa using hx
      simp only [List.filter_cons, hxb, if_true]
      simp only [stage2V1]
      rw [ih]

/-! ## A failing fetch aborts the whole call (C8) -/

/-- If the fetch of any listed candidate raises, the v2 candidate loop
surfaces an error (the first one encountered). -/
theorem stage2V2_error_of_mem (fetch : String → Except SearchError (List Record))
    (wEmb : List (List ℚ)) (wTypes wNames : List String) :
    ∀ (ids : List String) (oid : String) (e₀ : SearchError),
      oid ∈ ids → fetch oid = .error e₀ →
      ∃ e, stage2V2 fetch wEmb wTypes wNames ids = .error e := by
  intro ids
  induction ids with
  | nil => intro oid e₀ hmem _; cases hmem
  | cons x rest ih =>
    intro oid e₀ hmem hf
    rcases List.mem_cons.mp hmem with hx | hx
    · subst hx
      exact ⟨e₀, by simp [stage2V2, hf]⟩
    · cases hfx : fetch x with
      | error e' => exact ⟨e', by simp [stage2V2, hfx]⟩
      | ok records =>
        obtain ⟨e, he⟩ := ih oid e₀ hx hf
        by_cases hemp : records.isEmpty = true
        · exact ⟨e, by simp only [stage2V2, hfx]; rw [if_pos hemp]; exact he⟩
        · refine ⟨e, ?_⟩
          simp only [stage2V2, hfx]
          rw [if_neg hemp, he]

/-- If the fetch of any listed candidate raises, the v1 candidate loop
surfaces an error. -/
theorem stage2V1_error_of_mem (fetch : String → Except SearchError (List Record))
    (wEmb : List (List ℚ)) (wNames : List String) :
    ∀ (ids : List String) (oid : String) (e₀ : SearchError),
      oid ∈ ids → fetch oid = .error e₀ →
      ∃ e, stage2V1 fetch wEmb wNames ids = .error e := by
  intro ids
  induction ids with
  | nil => intro oid e₀ hmem _; cases hmem
  | cons x rest ih =>
    intro oid e₀ hmem hf
    rcases List.mem_cons.mp hmem with hx | hx
    · subst hx
      exact ⟨e₀, by simp [stage2V1, hf]⟩
    · cases hfx : fetch x with
      | error e' => exact ⟨e', by simp [stage2V1, hfx]⟩
      | ok records =>
        obtain ⟨e, he⟩ := ih oid e₀ hx hf
        by_cases hemp : records.isEmpty = true
        · exact ⟨e, by simp only [stage2V1, hfx]; rw [if_pos hemp]; exact he⟩
        · refine ⟨e, ?_⟩
          simp only [stage2V1, hfx]
          rw [if_neg hemp, he]

/-! ## Claim theorems -/

/-- C1 (amended).  Type-gating holds for `find_similar_outfit_v2` (it fails
for `find_similar_outfit`, see the counterexample): every `MatchedItem`
returned by v2 pairs a wardrobe index `j` with an outfit item record of the
candidate outfit such that the wardrobe item's clothing type
(`(images.map Prod.snd).getD j ""`) equals the record's indexed
`clothing_type` (`MatchFrom` carries exactly this equality). -/
theorem C1_amended (encode : List Img → List (List ℚ))
    (images : List (Img × String)) (wNames ids : List String)
    (qdrant : QdrantService) (k : ℕ) (res : List RecommendedOutfit)
    (h : find_similar_outfit_v2 encode images wNames ids qdrant k = .ok res) :
    ∀ r ∈ res, ∀ m ∈ r.«matches», ∃ recs,
      qdrant.get_outfit_vectors r.outfit_id = .ok recs ∧
      ∃ rec ∈ recs, MatchFrom (encode (images.map Prod.fst))
        (images.map Prod.snd) wNames m rec := by
  intro r hr m hm
  obtain ⟨oid, _, recs, hfetch, _, hout, hmatches, _, _⟩ :=
    find_similar_outfit_v2_mem encode images wNames ids qdrant k res h r hr
  rw [hmatches] at hm
  unfold scoreOutfitV2 at hm
  rcases v2_foldl_matched_mem (encode (images.map Prod.fst))
      (images.map Prod.snd) wNames recs ⟨[], [], []⟩ m hm with
    habs | ⟨rec, hrec, hmf⟩
  · simp at habs
  · exact ⟨recs, by rw [hout]; exact hfetch, rec, hrec, hmf⟩

/-- Witness for C1: on the Scenario-A fixture the single returned match is
type-gated. -/
theorem C1_amended_witness :
    ∃ recs, cexQdrantTypes.get_outfit_vectors "o1" = .ok recs ∧
      ∃ rec ∈ recs, MatchFrom (cexEncode [0]) ["shirt"] ["w0"] scenAMatch
        rec := by
  exact C1_amended cexEncode [(0, "shirt")] ["w0"] ["o1"] cexQdrantTypes 10
    [scenAResult]
    (by simp [find_similar_outfit_v2, stage2V2, scoreOutfitV2, v2Step,
      bestWardrobeMatch, dot, npSize, sortByScoreDesc, insertByScore,
      cexEncode, cexQdrantTypes, payloadClothingType, meanOrZero,
      List.range_succ, lookupStr, scenAResult, scenAMatch] <;> norm_num)
    scenAResult (by simp) scenAMatch (by simp [scenAResult])

/-- C2 (amended).  The one-to-one property holds for
`find_similar_outfit_v2` (it fails for `find_similar_outfit`, see the
counterexample): within one returned `RecommendedOutfit` the wardrobe indices
referenced by the matches are pairwise distinct. -/
theorem C2_amended (encode : List Img → List (List ℚ))
    (images : List (Img × String)) (wNames ids : List String)
    (qdrant : QdrantService) (k : ℕ) (res : List RecommendedOutfit)
    (h : find_similar_outfit_v2 encode images wNames ids qdrant k = .ok res) :
    ∀ r ∈ res,
      (r.«matches».filterMap (fun m => m.wardrobe_image_index)).Nodup := by
  intro r hr
  obtain ⟨oid, _, recs, _, _, _, hmatches, _, _⟩ :=
    find_similar_outfit_v2_mem encode images wNames ids qdrant k res h r hr
  rw [hmatches]
  have hinv := v2_foldl_inv (encode (images.map Prod.fst))
    (images.map Prod.snd) wNames recs ⟨[], [], []⟩
    ⟨fun m hm => by simp at hm, by simp⟩
  exact hinv.2

/-- Witness for C2: on the Scenario-A fixture the returned match list has
pairwise distinct wardrobe indices. -/
theorem C2_amended_witness :
    ((scenAResult.«matches»).filterMap
      (fun m => m.wardrobe_image_index)).Nodup := by
  exact C2_amended cexEncode [(0, "shirt")] ["w0"] ["o1"] cexQdrantTypes 10
    [scenAResult]
    (by simp [find_similar_outfit_v2, stage2V2, scoreOutfitV2, v2Step,
      bestWardrobeMatch, dot, npSize, sortByScoreDesc, insertByScore,
      cexEncode, cexQdrantTypes, payloadClothingType, meanOrZero,
      List.range_succ, lookupStr, scenAResult, scenAMatch] <;> norm_num)
    scenAResult (by simp)

/-- C3 (amended).  When an outfit item has no same-type, not-yet-assigned
wardrobe item, the v2 loop iteration emits *no* `MatchedItem` (in particular
no external-suggestion links) and appends the constant score `-10000` — not
`0.5 ×` the running mean; in the spec's Scenario A this makes the
completeness score `-4999.5`, see the counterexample. -/
theorem C3_amended (wEmb : List (List ℚ)) (wTypes wNames : List String)
    (st : V2State) (r : Record)
    (h : ∀ j : ℕ, j < wEmb.length →
      wTypes.getD j "" = payloadClothingType r → j ∈ st.used) :
    v2Step wEmb wTypes wNames st r =
      { matched := st.matched, scores := st.scores ++ [(-10000 : ℚ)],
        used := st.used } := by
  unfold v2Step
  dsimp only
  rw [bestWardrobeMatch_none wEmb wTypes st.used r.vector
    (payloadClothingType r) h]
  simp

/-- Witness for C3: a pants slot with a shirt-only wardrobe emits no match
and scores `-10000`. -/
theorem C3_amended_witness :
    v2Step [[1, 0]] ["shirt"] ["w0"] ⟨[], [], []⟩
        ⟨"i2", [0, 1], some [("clothing_type", "pants")]⟩ =
      { matched := [], scores := [(-10000 : ℚ)], used := [] } := by
  have happ := C3_amended [[1, 0]] ["shirt"] ["w0"] ⟨[], [], []⟩
    ⟨"i2", [0, 1], some [("clothing_type", "pants")]⟩
    (by
      intro j hj hty
      have hj0 : j = 0 := by
        simp only [List.length_cons, List.length_nil] at hj
        omega
      subst hj0
      simp [payloadClothingType, lookupStr] at hty)
  simpa using happ

/-- C10 (confirmed).  Every `RecommendedOutfit` returned by
`find_similar_outfit_v2` contains at least one `MatchedItem`, and a candidate
whose scoring produced no matches is dropped from the result entirely. -/
theorem C10_nonempty_matches (encode : List Img → List (List ℚ))
    (images : List (Img × String)) (wNames ids : List String)
    (qdrant : QdrantService) (k : ℕ) (res : List RecommendedOutfit)
    (h : find_similar_outfit_v2 encode images wNames ids qdrant k = .ok res) :
    (∀ r ∈ res, r.«matches» ≠ []) ∧
    (∀ oid recs, qdrant.get_outfit_vectors oid = .ok recs →
      (scoreOutfitV2 (encode (images.map Prod.fst)) (images.map Prod.snd)
        wNames recs).matched = [] →
      ∀ r ∈ res, r.outfit_id ≠ oid) := by
  constructor
  · intro r hr
    obtain ⟨_, _, recs, _, _, _, hmatches, hne, _⟩ :=
      find_similar_outfit_v2_mem encode images wNames ids qdrant k res h r hr
    rw [hmatches]
    exact hne
  · intro oid recs hfetch hempty r hr hout
    obtain ⟨oid', _, recs', hfetch', _, hout', _, hne', _⟩ :=
      find_similar_outfit_v2_mem encode images wNames ids qdrant k res h r hr
    have hoid : oid' = oid := hout'.symm.trans hout
    subst hoid
    have : recs' = recs := by
      have := hfetch'.symm.trans hfetch
      injection this
    subst this
    exact hne' hempty

/-- C4 (amended).  In `find_similar_outfit` (v1), `matches` holds exactly one
entry per indexed point and `completeness_score` is the mean of that many
per-item scores, as the claim states.  In `find_similar_outfit_v2`, matches
exist only for non-gap items (`len(matches) ≤` number of indexed points) while
`completeness_score` is the mean over *all* indexed points (one score per
point, gaps contributing `-10000`). -/
theorem C4_amended :
    (∀ (encode : List Img → List (List ℚ)) (images : List Img)
        (wNames : List String) (qdrant : QdrantService) (t : ℚ) (k : ℕ)
        (res : List RecommendedOutfit),
      find_similar_outfit encode images wNames qdrant t k = .ok res →
      ∀ r ∈ res, ∃ recs, qdrant.get_outfit_vectors r.outfit_id = .ok recs ∧
        recs ≠ [] ∧ r.«matches».length = recs.length ∧
        ((scoreOutfitV1 (encode images) wNames recs).2).length = recs.length ∧
        r.completeness_score =
          ((scoreOutfitV1 (encode images) wNames recs).2).sum /
            ((((scoreOutfitV1 (encode images) wNames recs).2).length : ℕ) : ℚ)) ∧
    (∀ (encode : List Img → List (List ℚ)) (images : List (Img × String))
        (wNames ids : List String) (qdrant : QdrantService) (k : ℕ)
        (res : List RecommendedOutfit),
      find_similar_outfit_v2 encode images wNames ids qdrant k = .ok res →
      ∀ r ∈ res, ∃ recs, qdrant.get_outfit_vectors r.outfit_id = .ok recs ∧
        recs ≠ [] ∧ r.«matches».length ≤ recs.length ∧
        ((scoreOutfitV2 (encode (images.map Prod.fst)) (images.map Prod.snd)
          wNames recs).scores).length = recs.length ∧
        r.completeness_score =
          ((scoreOutfitV2 (encode (images.map Prod.fst)) (images.map Prod.snd)
            wNames recs).scores).sum /
          ((((scoreOutfitV2 (encode (images.map Prod.fst))
            (images.map Prod.snd) wNames recs).scores).length : ℕ) : ℚ)) := by
  constructor
  · intro encode images wNames qdrant t k res h r hr
    obtain ⟨oid, _, recs, hfetch, hne, hout, hmatches, hscore⟩ :=
      find_similar_outfit_mem encode images wNames qdrant t k res h r hr
    refine ⟨recs, by rw [hout]; exact hfetch, hne, ?_, ?_, hscore⟩
    · rw [hmatches]
      exact scoreOutfitV1_fst_length (encode images) wNames recs
    · exact scoreOutfitV1_snd_length (encode images) wNames recs
  · intro encode images wNames ids qdrant k res h r hr
    obtain ⟨oid, _, recs, hfetch, hne, hout, hmatches, _, hscore⟩ :=
      find_similar_outfit_v2_mem encode images wNames ids qdrant k res h r hr
    have hslen : ((scoreOutfitV2 (encode (images.map Prod.fst))
        (images.map Prod.snd) wNames recs).scores).length = recs.length := by
      have := v2_foldl_scores_length (encode (images.map Prod.fst))
        (images.map Prod.snd) wNames recs ⟨[], [], []⟩
      simpa [scoreOutfitV2] using this
    have hmlen : r.«matches».length ≤ recs.length := by
      rw [hmatches]
      have := v2_foldl_matched_length (encode (images.map Prod.fst))
        (images.map Prod.snd) wNames recs ⟨[], [], []⟩
      simpa [scoreOutfitV2] using this
    refine ⟨recs, by rw [hout]; exact hfetch, hne, hmlen, hslen, ?_⟩
    rw [hscore]
    unfold meanOrZero
    rw [if_neg ?_]
    intro hempty
    rw [List.isEmpty_iff] at hempty
    rw [hempty] at hslen
    simp at hslen
    exact hne (List.length_eq_zero.mp hslen.symm)

/-- Witness for C4: the two fixture calls instantiate both halves. -/
theorem C4_amended_witness :
    (∃ recs, cexQdrantDup.get_outfit_vectors "o1" = .ok recs ∧
      recs ≠ [] ∧ dupResult.«matches».length = recs.length ∧
      ((scoreOutfitV1 (cexEncode [0]) ["w0"] recs).2).length = recs.length ∧
      dupResult.completeness_score =
        ((scoreOutfitV1 (cexEncode [0]) ["w0"] recs).2).sum /
          ((((scoreOutfitV1 (cexEncode [0]) ["w0"] recs).2).length : ℕ) : ℚ)) ∧
    (∃ recs, cexQdrantTypes.get_outfit_vectors "o1" = .ok recs ∧
      recs ≠ [] ∧ scenAResult.«matches».length ≤ recs.length ∧
      ((scoreOutfitV2 (cexEncode [0]) ["shirt"] ["w0"] recs).scores).length =
        recs.length ∧
      scenAResult.completeness_score =
        ((scoreOutfitV2 (cexEncode [0]) ["shirt"] ["w0"] recs).scores).sum /
          ((((scoreOutfitV2 (cexEncode [0]) ["shirt"] ["w0"]
            recs).scores).length : ℕ) : ℚ)) := by
  constructor
  · exact C4_amended.1 cexEncode [0] ["w0"] cexQdrantDup (7/10) 15 [dupResult]
      (by simp [find_similar_outfit, candidateIdsV1, stage2V1, scoreOutfitV1,
        scoreItemV1, argmaxIdx, dot, npSize, sortByScoreDesc, insertByScore,
        cexEncode, cexQdrantDup, lookupStr, List.range_succ, dupResult,
        dupMatch1, dupMatch2] <;> norm_num)
      dupResult (by simp)
  · exact C4_amended.2 cexEncode [(0, "shirt")] ["w0"] ["o1"] cexQdrantTypes
      10 [scenAResult]
      (by simp [find_similar_outfit_v2, stage2V2, scoreOutfitV2, v2Step,
        bestWardrobeMatch, dot, npSize, sortByScoreDesc, insertByScore,
        cexEncode, cexQdrantTypes, payloadClothingType, meanOrZero,
        List.range_succ, lookupStr, scenAResult, scenAMatch] <;> norm_num)
      scenAResult (by simp)

/-- C5 (confirmed).  Both search operations reject an empty wardrobe or
mismatched image/object-name list lengths with a `ValueError` before touching
the vector index (the result is the same for every `qdrant`). -/
theorem C5_validation :
    (∀ (encode : List Img → List (List ℚ)) (qdrant : QdrantService)
        (images : List Img) (wNames : List String) (t : ℚ) (k : ℕ),
      images = [] ∨ images.length ≠ wNames.length →
      find_similar_outfit encode images wNames qdrant t k =
        .error .valueError) ∧
    (∀ (encode : List Img → List (List ℚ)) (qdrant : QdrantService)
        (images : List (Img × String)) (wNames ids : List String) (k : ℕ),
      images = [] ∨ images.length ≠ wNames.length →
      find_similar_outfit_v2 encode images wNames ids qdrant k =
        .error .valueError) := by
  constructor
  · intro encode qdrant images wNames t k h
    have hcond : images.isEmpty = true ∨ ¬ images.length = wNames.length := by
      rcases h with h | h
      · exact Or.inl (by simp [h])
      · exact Or.inr h
    unfold find_similar_outfit
    rw [if_pos hcond]
  · intro encode qdrant images wNames ids k h
    have hcond : images.isEmpty = true ∨ wNames.isEmpty = true ∨
        ¬ images.length = wNames.length := by
      rcases h with h | h
      · exact Or.inl (by simp [h])
      · exact Or.inr (Or.inr h)
    unfold find_similar_outfit_v2
    rw [if_pos hcond]

/-- Witness for C5: the empty wardrobe is rejected by both operations. -/
theorem C5_validation_witness :
    find_similar_outfit cexEncode [] [] cexQdrantTypes (7/10) 15 =
      .error .valueError ∧
    find_similar_outfit_v2 cexEncode [] [] [] cexQdrantTypes 10 =
      .error .valueError :=
  ⟨C5_validation.1 cexEncode cexQdrantTypes [] [] (7/10) 15 (Or.inl rfl),
   C5_validation.2 cexEncode cexQdrantTypes [] [] [] 10 (Or.inl rfl)⟩

/-- C6 (confirmed).  On a valid non-empty wardrobe, producing no embeddings
(v1 and v2) or finding no Stage-1 candidates (v1) yields the empty result
list, not an exception. -/
theorem C6_empty_result :
    (∀ (encode : List Img → List (List ℚ)) (qdrant : QdrantService)
        (images : List Img) (wNames : List String) (t : ℚ) (k : ℕ),
      images ≠ [] → images.length = wNames.length →
      npSize (encode images) = 0 →
      find_similar_outfit encode images wNames qdrant t k = .ok []) ∧
    (∀ (encode : List Img → List (List ℚ)) (qdrant : QdrantService)
        (images : List Img) (wNames : List String) (t : ℚ) (k : ℕ),
      images ≠ [] → images.length = wNames.length →
      candidateIdsV1 qdrant.search_vectors (encode images) t = [] →
      find_similar_outfit encode images wNames qdrant t k = .ok []) ∧
    (∀ (encode : List Img → List (List ℚ)) (qdrant : QdrantService)
        (images : List (Img × String)) (wNames ids : List String) (k : ℕ),
      images ≠ [] → images.length = wNames.length →
      npSize (encode (images.map Prod.fst)) = 0 →
      find_similar_outfit_v2 encode images wNames ids qdrant k = .ok []) := by
  refine ⟨?_, ?_, ?_⟩
  · intro encode qdrant images wNames t k hne hlen hemb
    have hv : ¬ (images.isEmpty = true ∨ ¬ images.length = wNames.length) := by
      rintro (h | h)
      · simp at h; exact hne h
      · exact h hlen
    unfold find_similar_outfit
    rw [if_neg hv]
    dsimp only
    rw [if_pos hemb]
  · intro encode qdrant images wNames t k hne hlen hcand
    have hv : ¬ (images.isEmpty = true ∨ ¬ images.length = wNames.length) := by
      rintro (h | h)
      · simp at h; exact hne h
      · exact h hlen
    unfold find_similar_outfit
    rw [if_neg hv]
    dsimp only
    by_cases hn : npSize (encode images) = 0
    · rw [if_pos hn]
    · rw [if_neg hn]
      rw [if_pos (by simp [hcand])]
  · intro encode qdrant images wNames ids k hne hlen hemb
    have hv : ¬ (images.isEmpty = true ∨ wNames.isEmpty = true ∨
        ¬ images.length = wNames.length) := by
      rintro (h | h | h)
      · simp at h; exact hne h
      · simp at h
        rw [h] at hlen
        simp at hlen
        exact hne hlen
      · exact h hlen
    unfold find_similar_outfit_v2
    rw [if_neg hv]
    dsimp only
    rw [if_pos hemb]

/-- Witness for C6: no-embedding and no-candidate fixtures both return `[]`. -/
theorem C6_empty_result_witness :
    find_similar_outfit cexEncodeEmpty [0] ["w0"] cexQdrantTypes (7/10) 15 =
      .ok [] ∧
    find_similar_outfit cexEncode [0] ["w0"] cexQdrantNoHits (7/10) 15 =
      .ok [] ∧
    find_similar_outfit_v2 cexEncodeEmpty [(0, "shirt")] ["w0"] ["o1"]
      cexQdrantTypes 10 = .ok [] :=
  ⟨C6_empty_result.1 cexEncodeEmpty cexQdrantTypes [0] ["w0"] (7/10) 15
     (by simp) rfl rfl,
   C6_empty_result.2.1 cexEncode cexQdrantNoHits [0] ["w0"] (7/10) 15
     (by simp) rfl (by simp [candidateIdsV1, cexQdrantNoHits, cexEncode]),
   C6_empty_result.2.2 cexEncodeEmpty cexQdrantTypes [(0, "shirt")] ["w0"]
     ["o1"] 10 (by simp) rfl rfl⟩

/-- C7 (confirmed).  A candidate whose fetch returns zero indexed points is
silently dropped: the scoring loops (and the whole of
`find_similar_outfit_v2`, whose candidate list is an explicit input) behave
exactly as if the candidate id had been filtered out, and the remaining
candidates are still scored and returned. -/
theorem C7_skip_empty :
    (∀ (fetch : String → Except SearchError (List Record))
        (wEmb : List (List ℚ)) (wNames : List String) (ids : List String)
        (oid : String),
      fetch oid = .ok [] →
      stage2V1 fetch wEmb wNames ids =
        stage2V1 fetch wEmb wNames (ids.filter (fun x => x != oid))) ∧
    (∀ (fetch : String → Except SearchError (List Record))
        (wEmb : List (List ℚ)) (wTypes wNames : List String)
        (ids : List String) (oid : String),
      fetch oid = .ok [] →
      stage2V2 fetch wEmb wTypes wNames ids =
        stage2V2 fetch wEmb wTypes wNames (ids.filter (fun x => x != oid))) ∧
    (∀ (encode : List Img → List (List ℚ)) (images : List (Img × String))
        (wNames ids : List String) (qdrant : QdrantService) (k : ℕ)
        (oid : String),
      qdrant.get_outfit_vectors oid = .ok [] →
      find_similar_outfit_v2 encode images wNames ids qdrant k =
        find_similar_outfit_v2 encode images wNames
          (ids.filter (fun x => x != oid)) qdrant k) := by
  refine ⟨?_, ?_, ?_⟩
  · intro fetch wEmb wNames ids oid h
    exact stage2V1_skip_empty fetch wEmb wNames oid h ids
  · intro fetch wEmb wTypes wNames ids oid h
    exact stage2V2_skip_empty fetch wEmb wTypes wNames oid h ids
  · intro encode images wNames ids qdrant k oid h
    unfold find_similar_outfit_v2
    by_cases hv : images.isEmpty = true ∨ wNames.isEmpty = true ∨
        ¬ images.length = wNames.length
    · rw [if_pos hv, if_pos hv]
    · rw [if_neg hv, if_neg hv]
      dsimp only
      by_cases hn : npSize (encode (images.map Prod.fst)) = 0
      · rw [if_pos hn, if_pos hn]
      · rw [if_neg hn, if_neg hn]
        rw [stage2V2_skip_empty qdrant.get_outfit_vectors
          (encode (images.map Prod.fst)) (images.map Prod.snd) wNames oid h
          ids]

/-- Witness for C7: candidate `"o2"` has no indexed points in the fixture and
is dropped without affecting the result. -/
theorem C7_skip_empty_witness :
    stage2V1 cexQdrantTypes.get_outfit_vectors [[1, 0]] ["w0"] ["o2", "o1"] =
      stage2V1 cexQdrantTypes.get_outfit_vectors [[1, 0]] ["w0"]
        (["o2", "o1"].filter (fun x => x != "o2")) ∧
    stage2V2 cexQdrantTypes.get_outfit_vectors [[1, 0]] ["shirt"] ["w0"]
        ["o2", "o1"] =
      stage2V2 cexQdrantTypes.get_outfit_vectors [[1, 0]] ["shirt"] ["w0"]
        (["o2", "o1"].filter (fun x => x != "o2")) ∧
    find_similar_outfit_v2 cexEncode [(0, "shirt")] ["w0"] ["o2", "o1"]
        cexQdrantTypes 10 =
      find_similar_outfit_v2 cexEncode [(0, "shirt")] ["w0"]
        (["o2", "o1"].filter (fun x => x != "o2")) cexQdrantTypes 10 :=
  ⟨C7_skip_empty.1 cexQdrantTypes.get_outfit_vectors [[1, 0]] ["w0"]
     ["o2", "o1"] "o2" (by simp [cexQdrantTypes]),
   C7_skip_empty.2.1 cexQdrantTypes.get_outfit_vectors [[1, 0]] ["shirt"]
     ["w0"] ["o2", "o1"] "o2" (by simp [cexQdrantTypes]),
   C7_skip_empty.2.2 cexEncode [(0, "shirt")] ["w0"] ["o2", "o1"]
     cexQdrantTypes 10 "o2" (by simp [cexQdrantTypes])⟩

/-- C8 (amended).  A raised fetch for a listed candidate is *not* caught: it
aborts the whole call — both scoring loops (and hence both operations, shown
here on valid inputs that reach Stage 2) surface an error instead of
returning the remaining candidates.  Only a fetch returning zero points is
skipped (C7). -/
theorem C8_amended :
    (∀ (encode : List Img → List (List ℚ)) (images : List (Img × String))
        (wNames ids : List String) (qdrant : QdrantService) (k : ℕ)
        (oid : String) (e₀ : SearchError),
      oid ∈ ids → qdrant.get_outfit_vectors oid = .error e₀ →
      images ≠ [] → images.length = wNames.length →
      npSize (encode (images.map Prod.fst)) ≠ 0 →
      ∃ e, find_similar_outfit_v2 encode images wNames ids qdrant k =
        .error e) ∧
    (∀ (encode : List Img → List (List ℚ)) (images : List Img)
        (wNames : List String) (qdrant : QdrantService) (t : ℚ) (k : ℕ)
        (oid : String) (e₀ : SearchError),
      images ≠ [] → images.length = wNames.length →
      npSize (encode images) ≠ 0 →
      oid ∈ candidateIdsV1 qdrant.search_vectors (encode images) t →
      qdrant.get_outfit_vectors oid = .error e₀ →
      ∃ e, find_similar_outfit encode images wNames qdrant t k =
        .error e) := by
  constructor
  · intro encode images wNames ids qdrant k oid e₀ hmem hf hne hlen hn
    have hv : ¬ (images.isEmpty = true ∨ wNames.isEmpty = true ∨
        ¬ images.length = wNames.length) := by
      rintro (h | h | h)
      · simp at h; exact hne h
      · simp at h
        rw [h] at hlen
        simp at hlen
        exact hne hlen
      · exact h hlen
    unfold find_similar_outfit_v2
    rw [if_neg hv]
    dsimp only
    rw [if_neg hn]
    obtain ⟨e, he⟩ := stage2V2_error_of_mem qdrant.get_outfit_vectors
      (encode (images.map Prod.fst)) (images.map Prod.snd) wNames ids oid e₀
      hmem hf
    rw [he]
    exact ⟨e, rfl⟩
  · intro encode images wNames qdrant t k oid e₀ hne hlen hn hmemc hf
    have hv : ¬ (images.isEmpty = true ∨ ¬ images.length = wNames.length) := by
      rintro (h | h)
      · simp at h; exact hne h
      · exact h hlen
    have hc : ¬ ((candidateIdsV1 qdrant.search_vectors (encode images)
        t).isEmpty = true) := by
      intro hh
      simp at hh
      rw [hh] at hmemc
      cases hmemc
    unfold find_similar_outfit
    rw [if_neg hv]
    dsimp only
    rw [if_neg hn, if_neg hc]
    obtain ⟨e, he⟩ := stage2V1_error_of_mem qdrant.get_outfit_vectors
      (encode images) wNames
      (candidateIdsV1 qdrant.search_vectors (encode images) t) oid e₀ hmemc hf
    rw [he]
    exact ⟨e, rfl⟩

/-- Witness for C8: on the failing-fetch fixture both operations abort. -/
theorem C8_amended_witness :
    (∃ e, find_similar_outfit_v2 cexEncode [(0, "shirt")] ["w0"]
      ["bad", "o2"] cexQdrantFail 10 = .error e) ∧
    (∃ e, find_similar_outfit cexEncode [0] ["w0"] cexQdrantFail (7/10) 15 =
      .error e) :=
  ⟨C8_amended.1 cexEncode [(0, "shirt")] ["w0"] ["bad", "o2"] cexQdrantFail
     10 "bad" .upstream (by simp) (by simp [cexQdrantFail]) (by simp) rfl
     (by simp [npSize, cexEncode]),
   C8_amended.2 cexEncode [0] ["w0"] cexQdrantFail (7/10) 15 "bad" .upstream
     (by simp) rfl (by simp [npSize, cexEncode])
     (by simp [candidateIdsV1, cexQdrantFail, cexEncode, lookupStr])
     (by simp [cexQdrantFail])⟩

/-- Witness for C10: on the Scenario-A fixture the returned outfit's match
list is non-empty. -/
theorem C10_nonempty_matches_witness :
    scenAResult.«matches» ≠ [] := by
  exact (C10_nonempty_matches cexEncode [(0, "shirt")] ["w0"] ["o1"]
    cexQdrantTypes 10 [scenAResult]
    (by simp [find_similar_outfit_v2, stage2V2, scoreOutfitV2, v2Step,
      bestWardrobeMatch, dot, npSize, sortByScoreDesc, insertByScore,
      cexEncode, cexQdrantTypes, payloadClothingType, meanOrZero,
      List.range_succ, lookupStr, scenAResult, scenAMatch] <;> norm_num)).1
    scenAResult (by simp)

end OutfitPredict
